import Mathlib

/-!
Formal model of the BlueZ A2DP stream coordinator (`src/audio/a2dp.c`) and
the Android HID host connector (`src/android/hid.c`), with theorems settling
the specification's claims about them.

Pure C functions are translated as Lean functions over `Nat` bitmasks and
record types mirroring the C structs.  Stateful callbacks are translated as
explicit state transformers; calls into the external AVDTP / GLib / L2CAP
layers are modelled by boolean parameters carrying those calls' outcomes and
by effect records listing the operations the code issues.
-/

/-! ## Constants

The SBC capability bit values follow `a2dp.h` (not part of this tree); the
spec's section 6 records the same wire encoding: frequency 16k=0x8, 32k=0x4,
44.1k=0x2, 48k=0x1; channel mode mono=0x8, dual=0x4, stereo=0x2, joint=0x1;
block length 4=0x8, 8=0x4, 12=0x2, 16=0x1; subbands 4=0x2, 8=0x1;
allocation SNR=0x2, loudness=0x1. -/

def A2DP_SAMPLING_FREQ_16000 : Nat := 8
def A2DP_SAMPLING_FREQ_32000 : Nat := 4
def A2DP_SAMPLING_FREQ_44100 : Nat := 2
def A2DP_SAMPLING_FREQ_48000 : Nat := 1

def A2DP_CHANNEL_MODE_MONO : Nat := 8
def A2DP_CHANNEL_MODE_DUAL_CHANNEL : Nat := 4
def A2DP_CHANNEL_MODE_STEREO : Nat := 2
def A2DP_CHANNEL_MODE_JOINT_STEREO : Nat := 1

def A2DP_BLOCK_LENGTH_4 : Nat := 8
def A2DP_BLOCK_LENGTH_8 : Nat := 4
def A2DP_BLOCK_LENGTH_12 : Nat := 2
def A2DP_BLOCK_LENGTH_16 : Nat := 1

def A2DP_SUBBANDS_4 : Nat := 2
def A2DP_SUBBANDS_8 : Nat := 1

def A2DP_ALLOCATION_SNR : Nat := 2
def A2DP_ALLOCATION_LOUDNESS : Nat := 1

def MIN_BITPOOL : Nat := 2
def MAX_BITPOOL : Nat := 64

def AVDTP_MEDIA_TYPE_AUDIO : Nat := 0
def A2DP_CODEC_SBC : Nat := 0
/-- AVDTP service-capability category `AVDTP_MEDIA_CODEC` (value 0x07 per the
AVDTP signalling spec; `avdtp.h` is not part of this tree). -/
def AVDTP_MEDIA_CODEC : Nat := 7
/-- AVDTP error code `AVDTP_UNSUPPORTED_CONFIGURATION` (0x29 per the AVDTP
signalling spec). -/
def AVDTP_UNSUPPORTED_CONFIGURATION : Nat := 41
def AVDTP_SEP_TYPE_SOURCE : Nat := 0
def AVDTP_SEP_TYPE_SINK : Nat := 1

/-! ## SBC capability record and the codec selector (`a2dp.c:181-288`) -/

/-- Mirror of `struct sbc_codec_cap` (including the embedded
`avdtp_media_codec_capability` header fields `media_type` and
`media_codec_type`).  In C the mask fields are bitfields of width 4, 4, 2, 2
and 4 and both bitpool fields are `uint8_t`; those widths appear as
hypotheses where theorems need them. -/
structure sbc_codec_cap where
  media_type : Nat
  media_codec_type : Nat
  frequency : Nat
  channel_mode : Nat
  block_length : Nat
  subbands : Nat
  allocation_method : Nat
  min_bitpool : Nat
  max_bitpool : Nat
deriving Repr, DecidableEq

/-- Mirror of `default_bitpool` (`a2dp.c:181-215`): the nested `switch` on
the selected frequency and channel-mode bits, including the `error(...)`
fallthrough values of the `default:` branches. -/
def default_bitpool (freq mode : Nat) : Nat :=
  if freq = A2DP_SAMPLING_FREQ_16000 ∨ freq = A2DP_SAMPLING_FREQ_32000 then 53
  else if freq = A2DP_SAMPLING_FREQ_44100 then
    if mode = A2DP_CHANNEL_MODE_MONO ∨ mode = A2DP_CHANNEL_MODE_DUAL_CHANNEL then 31
    else if mode = A2DP_CHANNEL_MODE_STEREO ∨ mode = A2DP_CHANNEL_MODE_JOINT_STEREO then 53
    else 53
  else if freq = A2DP_SAMPLING_FREQ_48000 then
    if mode = A2DP_CHANNEL_MODE_MONO ∨ mode = A2DP_CHANNEL_MODE_DUAL_CHANNEL then 29
    else if mode = A2DP_CHANNEL_MODE_STEREO ∨ mode = A2DP_CHANNEL_MODE_JOINT_STEREO then 51
    else 51
  else 53

/-- The frequency if-chain of `select_sbc_params` (`a2dp.c:227-238`):
44.1 kHz, then 48 kHz, then 32 kHz, then 16 kHz, else failure. -/
def select_frequency (f : Nat) : Option Nat :=
  if f &&& A2DP_SAMPLING_FREQ_44100 ≠ 0 then some A2DP_SAMPLING_FREQ_44100
  else if f &&& A2DP_SAMPLING_FREQ_48000 ≠ 0 then some A2DP_SAMPLING_FREQ_48000
  else if f &&& A2DP_SAMPLING_FREQ_32000 ≠ 0 then some A2DP_SAMPLING_FREQ_32000
  else if f &&& A2DP_SAMPLING_FREQ_16000 ≠ 0 then some A2DP_SAMPLING_FREQ_16000
  else none

/-- The channel-mode if-chain of `select_sbc_params` (`a2dp.c:240-251`):
joint stereo, then stereo, then dual channel, then mono, else failure. -/
def select_channel_mode (m : Nat) : Option Nat :=
  if m &&& A2DP_CHANNEL_MODE_JOINT_STEREO ≠ 0 then some A2DP_CHANNEL_MODE_JOINT_STEREO
  else if m &&& A2DP_CHANNEL_MODE_STEREO ≠ 0 then some A2DP_CHANNEL_MODE_STEREO
  else if m &&& A2DP_CHANNEL_MODE_DUAL_CHANNEL ≠ 0 then some A2DP_CHANNEL_MODE_DUAL_CHANNEL
  else if m &&& A2DP_CHANNEL_MODE_MONO ≠ 0 then some A2DP_CHANNEL_MODE_MONO
  else none

/-- The block-length if-chain of `select_sbc_params` (`a2dp.c:253-264`):
16, then 12, then 8, then 4, else failure. -/
def select_block_length (b : Nat) : Option Nat :=
  if b &&& A2DP_BLOCK_LENGTH_16 ≠ 0 then some A2DP_BLOCK_LENGTH_16
  else if b &&& A2DP_BLOCK_LENGTH_12 ≠ 0 then some A2DP_BLOCK_LENGTH_12
  else if b &&& A2DP_BLOCK_LENGTH_8 ≠ 0 then some A2DP_BLOCK_LENGTH_8
  else if b &&& A2DP_BLOCK_LENGTH_4 ≠ 0 then some A2DP_BLOCK_LENGTH_4
  else none

/-- The subbands if-chain of `select_sbc_params` (`a2dp.c:266-273`):
8, then 4, else failure. -/
def select_subbands (s : Nat) : Option Nat :=
  if s &&& A2DP_SUBBANDS_8 ≠ 0 then some A2DP_SUBBANDS_8
  else if s &&& A2DP_SUBBANDS_4 ≠ 0 then some A2DP_SUBBANDS_4
  else none

/-- The allocation-method if-chain of `select_sbc_params` (`a2dp.c:275-278`).
Unlike the other four fields this chain has no `else { return FALSE; }`
branch in the C code: when neither bit is present the field keeps the value
0 left by the initial `memset` and the function continues. -/
def select_allocation (a : Nat) : Nat :=
  if a &&& A2DP_ALLOCATION_LOUDNESS ≠ 0 then A2DP_ALLOCATION_LOUDNESS
  else if a &&& A2DP_ALLOCATION_SNR ≠ 0 then A2DP_ALLOCATION_SNR
  else 0

/-- Mirror of `select_sbc_params` (`a2dp.c:217-288`).  `none` models the
`return FALSE` paths; on success the returned record is the configuration
written into `*cap`. -/
def select_sbc_params (supported : sbc_codec_cap) : Option sbc_codec_cap :=
  (select_frequency supported.frequency).bind fun freq =>
  (select_channel_mode supported.channel_mode).bind fun mode =>
  (select_block_length supported.block_length).bind fun blk =>
  (select_subbands supported.subbands).bind fun sub =>
  some { media_type := AVDTP_MEDIA_TYPE_AUDIO
         media_codec_type := A2DP_CODEC_SBC
         frequency := freq
         channel_mode := mode
         block_length := blk
         subbands := sub
         allocation_method := select_allocation supported.allocation_method
         min_bitpool := max MIN_BITPOOL supported.min_bitpool
         max_bitpool := min (default_bitpool freq mode) supported.max_bitpool }

/-- The full local SBC capability set advertised by `getcap_ind`
(`a2dp.c:444-465`): all frequencies, all channel modes, all block lengths,
both subbands counts, both allocation methods, bitpool [2, 64]. -/
def local_sbc_cap : sbc_codec_cap :=
  { media_type := AVDTP_MEDIA_TYPE_AUDIO
    media_codec_type := A2DP_CODEC_SBC
    frequency := A2DP_SAMPLING_FREQ_48000 ||| A2DP_SAMPLING_FREQ_44100 |||
      A2DP_SAMPLING_FREQ_32000 ||| A2DP_SAMPLING_FREQ_16000
    channel_mode := A2DP_CHANNEL_MODE_JOINT_STEREO ||| A2DP_CHANNEL_MODE_STEREO |||
      A2DP_CHANNEL_MODE_DUAL_CHANNEL ||| A2DP_CHANNEL_MODE_MONO
    block_length := A2DP_BLOCK_LENGTH_16 ||| A2DP_BLOCK_LENGTH_12 |||
      A2DP_BLOCK_LENGTH_8 ||| A2DP_BLOCK_LENGTH_4
    subbands := A2DP_SUBBANDS_8 ||| A2DP_SUBBANDS_4
    allocation_method := A2DP_ALLOCATION_LOUDNESS ||| A2DP_ALLOCATION_SNR
    min_bitpool := MIN_BITPOOL
    max_bitpool := MAX_BITPOOL }

/-- Modelled from the spec: the selection policy "pick the single
highest-preference bit set in both local and remote masks, in this fixed
order" — the first bit of the preference list `pref` present in `mask`,
or 0 when none is. -/
def firstSetBit : List Nat → Nat → Nat
  | [], _ => 0
  | b :: rest, mask => if mask &&& b ≠ 0 then b else firstSetBit rest mask

/-! ## Remote set_configuration indication (`a2dp.c:369-418`) -/

/-- Mirror of `struct avdtp_service_capability` as `setconf_ind` reads it:
a category byte and, for media-codec capabilities, the codec payload
(`cap->data` reinterpreted).  All codec payloads are carried as
`sbc_codec_cap`; `media_codec_type` distinguishes SBC from other codecs. -/
structure avdtp_service_capability where
  category : Nat
  codec : sbc_codec_cap
deriving Repr, DecidableEq

/-- The capability loop of `setconf_ind` (`a2dp.c:394-409`): walk `caps`
until the first `AVDTP_MEDIA_CODEC` entry; if that entry is an SBC codec
with `min_bitpool < MIN_BITPOOL` or `max_bitpool > MAX_BITPOOL` the check
fails, otherwise (including when the first media-codec entry is not SBC, or
no media-codec entry exists) it passes; the loop `break`s after the first
media-codec entry either way. -/
def setconf_bitpool_check : List avdtp_service_capability → Bool
  | [] => true
  | cap :: rest =>
    if cap.category = AVDTP_MEDIA_CODEC then
      if cap.codec.media_codec_type = A2DP_CODEC_SBC then
        if cap.codec.min_bitpool < MIN_BITPOOL ∨ cap.codec.max_bitpool > MAX_BITPOOL then
          false
        else true
      else true
    else setconf_bitpool_check rest

/-- The first `AVDTP_MEDIA_CODEC` capability of a list, i.e. the entry the
`setconf_ind` loop stops at. -/
def find_media_codec : List avdtp_service_capability → Option sbc_codec_cap
  | [] => none
  | cap :: rest =>
    if cap.category = AVDTP_MEDIA_CODEC then some cap.codec
    else find_media_codec rest

/-- Observable outcome of `setconf_ind`: the returned boolean, the error
code and category written through `*err` / `*category` on rejection, the
SEP's stream slot after the call, whether `avdtp_stream_add_cb` attached the
`stream_state_changed` listener, and whether `sink_new_stream` notified the
sink consumer. -/
structure setconf_result where
  accepted : Bool
  err : Option Nat
  err_category : Option Nat
  sep_stream : Option Nat
  cb_attached : Bool
  sink_notified : Bool
deriving Repr, DecidableEq

/-- Mirror of `setconf_ind` (`a2dp.c:369-418`).  `sep_type` is
`a2dp_sep->type`; `dev_present` is the outcome of the `a2dp_get_dev` lookup;
`sep_stream0` is the SEP's stream slot before the call; `stream` is the new
stream being configured. -/
def setconf_ind (sep_type : Nat) (dev_present : Bool)
    (caps : List avdtp_service_capability) (sep_stream0 : Option Nat)
    (stream : Nat) : setconf_result :=
  if ¬dev_present then
    { accepted := false
      err := some AVDTP_UNSUPPORTED_CONFIGURATION
      err_category := some 0
      sep_stream := sep_stream0
      cb_attached := false
      sink_notified := false }
  else if ¬setconf_bitpool_check caps then
    { accepted := false
      err := some AVDTP_UNSUPPORTED_CONFIGURATION
      err_category := some AVDTP_MEDIA_CODEC
      sep_stream := sep_stream0
      cb_attached := false
      sink_notified := false }
  else
    { accepted := true
      err := none
      err_category := none
      sep_stream := some stream
      cb_attached := true
      sink_notified := sep_type == AVDTP_SEP_TYPE_SOURCE }

/-! ## SEP pool, stream setups and the session coordinator
(`a2dp.c:59-94, 1026-1273`) -/

/-- The AVDTP stream states reported by `avdtp_sep_get_state`. -/
inductive avdtp_state where
  | IDLE
  | CONFIGURED
  | OPEN
  | STREAMING
  | CLOSING
  | ABORTING
deriving Repr, DecidableEq

/-- Mirror of `struct a2dp_sep` (`a2dp.c:59-68`).  `state` stands for
`avdtp_sep_get_state(sep->sep)`; sessions and streams are identified by
numbers; `suspend_timer` is whether the idle-suspend timer is armed. -/
structure a2dp_sep where
  typ : Nat
  state : avdtp_state
  session : Option Nat
  stream : Option Nat
  suspend_timer : Bool
  locked : Bool
  suspending : Bool
  starting : Bool
deriving Repr, DecidableEq

/-- Mirror of `struct a2dp_stream_setup` (`a2dp.c:76-84`); callback records
are represented by their integer ids. -/
structure a2dp_stream_setup where
  session : Nat
  sep : Option a2dp_sep
  stream : Option Nat
  media_codec : Option Nat
  start : Bool
  canceled : Bool
  cb : List Nat
deriving Repr, DecidableEq

/-- AVDTP operations `a2dp.c` issues on a session. -/
inductive avdtp_op where
  | discover
  | start
  | close
  | suspend
deriving Repr, DecidableEq

/-- The SEP-scanning loop of `a2dp_source_request_stream`
(`a2dp.c:1071-1081`): skip locked SEPs, pick the first whose stream slot is
empty or whose stream the session already owns (`avdtp_has_stream`). -/
def request_stream_find_sep (has_stream : Nat → Bool) :
    List a2dp_sep → Option a2dp_sep
  | [] => none
  | t :: rest =>
    if t.locked then request_stream_find_sep has_stream rest
    else match t.stream with
      | none => some t
      | some st =>
        if has_stream st then some t
        else request_stream_find_sep has_stream rest

/-- Observable outcome of `a2dp_source_request_stream`: the returned id
(0 on failure), the callback-id counter after the call, the session's
stream setup after the call (`none` when freed or never created), the
chosen SEP's state after the call, the AVDTP operations issued, and whether
`finalize_stream_setup` was scheduled with `g_idle_add`. -/
structure request_stream_result where
  ret_id : Nat
  cb_id : Nat
  setup : Option a2dp_stream_setup
  sep : Option a2dp_sep
  ops : List avdtp_op
  idle_finalize : Bool
deriving Repr, DecidableEq

/-- Mirror of `a2dp_source_request_stream` (`a2dp.c:1059-1169`).
`has_stream st` is `avdtp_has_stream(session, st)`; `existing` is
`find_setup_by_session(session)`; `cb_id` is the static counter before the
call; `discover_ok`, `start_ok`, `close_ok` are the outcomes of
`avdtp_discover` / `avdtp_start` / `avdtp_close`, and `has_cap` the outcome
of `avdtp_stream_has_capability`. -/
def a2dp_source_request_stream (sources : List a2dp_sep)
    (has_stream : Nat → Bool) (session : Nat) (start : Bool)
    (media_codec : Option Nat) (existing : Option a2dp_stream_setup)
    (cb_id : Nat) (discover_ok start_ok close_ok has_cap : Bool) :
    request_stream_result :=
  match request_stream_find_sep has_stream sources with
  | none =>
    { ret_id := 0, cb_id := cb_id, setup := existing, sep := none,
      ops := [], idle_finalize := false }
  | some sep =>
    let new_id := cb_id + 1
    match existing with
    | some setup =>
      { ret_id := new_id, cb_id := new_id
        setup := some { setup with
          canceled := false
          sep := some sep
          cb := setup.cb ++ [new_id]
          start := setup.start || start }
        sep := some sep, ops := [], idle_finalize := false }
    | none =>
      let setup : a2dp_stream_setup :=
        { session := session, sep := some sep, stream := sep.stream,
          media_codec := media_codec, start := start, canceled := false,
          cb := [new_id] }
      let done : List avdtp_op → Bool → a2dp_sep → request_stream_result :=
        fun ops idle sep2 =>
          { ret_id := new_id, cb_id := new_id, setup := some setup,
            sep := some sep2, ops := ops, idle_finalize := idle }
      let failed : List avdtp_op → request_stream_result :=
        fun ops =>
          { ret_id := 0, cb_id := cb_id, setup := none, sep := some sep,
            ops := ops, idle_finalize := false }
      match sep.state with
      | .IDLE =>
        if discover_ok then done [.discover] false sep
        else failed [.discover]
      | .OPEN =>
        if !start then done [] true sep
        else if sep.starting then done [] false sep
        else match media_codec with
          | some _ =>
            if has_cap then
              if start_ok then done [.start] false sep else failed [.start]
            else
              if close_ok then done [.close] false sep else failed [.close]
          | none =>
            if start_ok then done [.start] false sep else failed [.start]
      | .STREAMING =>
        if !start || !sep.suspending then
          done [] true { sep with suspend_timer := false }
        else done [] false sep
      | _ => failed []

/-- Mirror of `a2dp_sep_lock` (`a2dp.c:1171-1180`): fails when already
locked, otherwise sets `locked`. -/
def a2dp_sep_lock (sep : a2dp_sep) : a2dp_sep × Bool :=
  if sep.locked then (sep, false)
  else ({ sep with locked := true }, true)

/-- Effects of `a2dp_sep_unlock`: AVDTP operations issued and whether an
idle-suspend timer was armed by the call. -/
structure unlock_effects where
  ops : List avdtp_op
  timer_armed : Bool
deriving Repr, DecidableEq

/-- Mirror of `a2dp_sep_unlock` (`a2dp.c:1182-1208`).  `suspend_ok` is the
outcome of `avdtp_suspend`.  Note the `AVDTP_STATE_OPEN` case of the C
switch contains only the comment `/* Set timer here */` and no code. -/
def a2dp_sep_unlock (sep : a2dp_sep) (suspend_ok : Bool) :
    a2dp_sep × unlock_effects :=
  let sep1 := { sep with locked := false }
  if sep1.stream = none ∨ sep1.state = avdtp_state.IDLE then
    (sep1, { ops := [], timer_armed := false })
  else match sep1.state with
    | .OPEN => (sep1, { ops := [], timer_armed := false })
    | .STREAMING =>
      ({ sep1 with suspending := if suspend_ok then true else sep1.suspending },
       { ops := [.suspend], timer_armed := false })
    | _ => (sep1, { ops := [], timer_armed := false })

/-- Observable outcome of `suspend_cfm`: the SEP after the call, the AVDTP
operations issued, and whether `finalize_stream_setup` ran (freeing the
setup). -/
structure suspend_cfm_result where
  sep : a2dp_sep
  ops : List avdtp_op
  finalized : Bool
deriving Repr, DecidableEq

/-- Mirror of `suspend_cfm` (`a2dp.c:668-695`).  `err` is whether the
confirmation carries an AVDTP error; `setup` is
`find_setup_by_session(session)`; `start_ok` is the outcome of
`avdtp_start`. -/
def suspend_cfm (sep : a2dp_sep) (err : Bool)
    (setup : Option a2dp_stream_setup) (start_ok : Bool) :
    suspend_cfm_result :=
  let sep1 := { sep with suspending := false }
  match setup with
  | none => { sep := sep1, ops := [], finalized := false }
  | some setup =>
    if err then { sep := sep1, ops := [], finalized := true }
    else if setup.start then
      if start_ok then { sep := sep1, ops := [.start], finalized := false }
      else { sep := sep1, ops := [.start], finalized := true }
    else { sep := sep1, ops := [], finalized := false }

/-! ## HID connector (`src/android/hid.c`) -/

/-- State of one `struct hid_device` (`hid.c:50-56`) plus its membership in
the `devices` table.  Channel handles are split into an openness bit (the
underlying L2CAP channel not yet shut down) and a reference bit (the
`ctrl_io` / `intr_io` pointer still held), since `g_io_channel_shutdown`
closes a channel while the struct keeps the pointer. -/
structure hid_device where
  ctrl_open : Bool
  intr_open : Bool
  ctrl_ref : Bool
  intr_ref : Bool
  ctrl_watch : Bool
  intr_watch : Bool
  in_table : Bool
deriving Repr, DecidableEq

/-- A GLib IO condition word as the watch callbacks test it. -/
structure gio_cond where
  has_in : Bool
  hup : Bool
  err : Bool
  nval : Bool
deriving Repr, DecidableEq

/-- Mirror of `intr_watch_cb` (`hid.c:105-135`).  The returned boolean is
the callback's return value (`TRUE` keeps the watch installed).  On the
non-readable path: shut the interrupt channel down when the condition has
HUP or ERR and the control watch is still installed, clear the interrupt
watch id, drop the interrupt channel reference, and shut the control
channel down unless the condition includes NVAL. -/
def intr_watch_cb (h : hid_device) (c : gio_cond) : hid_device × Bool :=
  if c.has_in then (h, true)
  else
    let h1 := if (c.hup || c.err) && h.ctrl_watch then
        { h with intr_open := false } else h
    let h2 := { h1 with intr_watch := false }
    let h3 := if h2.intr_ref then { h2 with intr_ref := false } else h2
    let h4 := if h3.ctrl_ref && !c.nval then { h3 with ctrl_open := false } else h3
    (h4, false)

/-- Mirror of `ctrl_watch_cb` (`hid.c:137-163`), symmetric to
`intr_watch_cb` but with no readable branch (the control watch is installed
without `G_IO_IN`). -/
def ctrl_watch_cb (h : hid_device) (c : gio_cond) : hid_device × Bool :=
  let h1 := if (c.hup || c.err) && h.intr_watch then
      { h with ctrl_open := false } else h
  let h2 := { h1 with ctrl_watch := false }
  let h3 := if h2.ctrl_ref then { h2 with ctrl_ref := false } else h2
  let h4 := if h3.intr_ref && !c.nval then { h3 with intr_open := false } else h3
  (h4, false)

/-- A fully connected HID device: both channels open and referenced, both
watches armed, present in the device table. -/
def connected_hid : hid_device :=
  { ctrl_open := true, intr_open := true, ctrl_ref := true, intr_ref := true,
    ctrl_watch := true, intr_watch := true, in_table := true }

/-- The device state right after its interrupt watch fires with `G_IO_HUP`. -/
def hid_after_intr_hup : hid_device :=
  (intr_watch_cb connected_hid
    { has_in := false, hup := true, err := false, nval := false }).1

/-- The device state once the event loop settles: shutting the control
channel down makes the control watch fire with `G_IO_NVAL`, which runs
`ctrl_watch_cb`. -/
def hid_settled : hid_device :=
  (ctrl_watch_cb hid_after_intr_hup
    { has_in := false, hup := false, err := false, nval := true }).1

/-! ## HID IPC command handling (`hid.c:237-297`) -/

/-- IPC status codes from `hal-msg.h` (not part of this tree); only their
distinctness matters here. -/
def HAL_STATUS_SUCCESS : Nat := 0
def HAL_STATUS_FAILED : Nat := 1
def HAL_STATUS_INVALID : Nat := 7

/-- HID host opcodes from `hal-msg.h` (not part of this tree). -/
def HAL_OP_HID_CONNECT : Nat := 1
def HAL_OP_HID_DISCONNECT : Nat := 2

/-- Mirror of `bt_hid_connect` (`hid.c:237-279`).  `len` is the IPC payload
length, `cmd_size` is `sizeof(struct hal_cmd_hid_connect)`, `devices` the
table of connected peer addresses, `dst` the requested address, and
`connect_err` whether `bt_io_connect` reported an immediate error.  Returns
the HAL status and the device table after the call (on the error path
`hid_device_free` removes the record again). -/
def bt_hid_connect (len cmd_size : Nat) (devices : List Nat) (dst : Nat)
    (connect_err : Bool) : Nat × List Nat :=
  if len < cmd_size then (HAL_STATUS_INVALID, devices)
  else if devices.contains dst then (HAL_STATUS_FAILED, devices)
  else if connect_err then (HAL_STATUS_FAILED, devices)
  else (HAL_STATUS_SUCCESS, devices ++ [dst])

/-- Observable outcome of `bt_hid_handle_cmd`: the status carried by the
single `ipc_send_rsp` call, the number of IPC responses sent, and the
device table after the call. -/
structure handle_cmd_result where
  status : Nat
  responses : Nat
  devices : List Nat
deriving Repr, DecidableEq

/-- Mirror of `bt_hid_handle_cmd` (`hid.c:281-297`).  `status` starts as
`HAL_STATUS_FAILED`; only the `HAL_OP_HID_CONNECT` case assigns it; the
`HAL_OP_HID_DISCONNECT` case and the default case just `break`, so the
response carries the initial `HAL_STATUS_FAILED`; exactly one
`ipc_send_rsp` runs in every case. -/
def bt_hid_handle_cmd (opcode len cmd_size : Nat) (devices : List Nat)
    (dst : Nat) (connect_err : Bool) : handle_cmd_result :=
  if opcode = HAL_OP_HID_CONNECT then
    let r := bt_hid_connect len cmd_size devices dst connect_err
    { status := r.1, responses := 1, devices := r.2 }
  else if opcode = HAL_OP_HID_DISCONNECT then
    { status := HAL_STATUS_FAILED, responses := 1, devices := devices }
  else
    { status := HAL_STATUS_FAILED, responses := 1, devices := devices }

/-! ## Codec selector lemmas -/

/-- Frequency chain agrees with the spec's preference order on every value
of the 4-bit field with a common bit. -/
theorem select_frequency_common : ∀ f : Nat, f < 16 → f &&& 15 ≠ 0 →
    select_frequency f = some (firstSetBit [A2DP_SAMPLING_FREQ_44100,
      A2DP_SAMPLING_FREQ_48000, A2DP_SAMPLING_FREQ_32000,
      A2DP_SAMPLING_FREQ_16000] f) := by decide

/-- Channel-mode chain agrees with the spec's preference order. -/
theorem select_channel_mode_common : ∀ m : Nat, m < 16 → m &&& 15 ≠ 0 →
    select_channel_mode m = some (firstSetBit [A2DP_CHANNEL_MODE_JOINT_STEREO,
      A2DP_CHANNEL_MODE_STEREO, A2DP_CHANNEL_MODE_DUAL_CHANNEL,
      A2DP_CHANNEL_MODE_MONO] m) := by decide

/-- Block-length chain agrees with the spec's preference order. -/
theorem select_block_length_common : ∀ b : Nat, b < 16 → b &&& 15 ≠ 0 →
    select_block_length b = some (firstSetBit [A2DP_BLOCK_LENGTH_16,
      A2DP_BLOCK_LENGTH_12, A2DP_BLOCK_LENGTH_8, A2DP_BLOCK_LENGTH_4] b) := by
  decide

/-- Subbands chain agrees with the spec's preference order. -/
theorem select_subbands_common : ∀ s : Nat, s < 4 → s &&& 3 ≠ 0 →
    select_subbands s = some (firstSetBit [A2DP_SUBBANDS_8, A2DP_SUBBANDS_4] s) := by
  decide

/-- Allocation chain agrees with the spec's preference order when a common
bit exists. -/
theorem select_allocation_common : ∀ a : Nat, a < 4 → a &&& 3 ≠ 0 →
    select_allocation a = firstSetBit [A2DP_ALLOCATION_LOUDNESS,
      A2DP_ALLOCATION_SNR] a := by decide

/-- Frequency chain fails exactly on an empty intersection. -/
theorem select_frequency_none : ∀ f : Nat, f < 16 →
    (select_frequency f = none ↔ f &&& 15 = 0) := by decide

/-- Channel-mode chain fails exactly on an empty intersection. -/
theorem select_channel_mode_none : ∀ m : Nat, m < 16 →
    (select_channel_mode m = none ↔ m &&& 15 = 0) := by decide

/-- Block-length chain fails exactly on an empty intersection. -/
theorem select_block_length_none : ∀ b : Nat, b < 16 →
    (select_block_length b = none ↔ b &&& 15 = 0) := by decide

/-- Subbands chain fails exactly on an empty intersection. -/
theorem select_subbands_none : ∀ s : Nat, s < 4 →
    (select_subbands s = none ↔ s &&& 3 = 0) := by decide

/-- `select_sbc_params` fails exactly when one of its four fallible chains
fails; the allocation chain is not among them. -/
theorem select_sbc_params_eq_none (s : sbc_codec_cap) :
    select_sbc_params s = none ↔
      (select_frequency s.frequency = none ∨
       select_channel_mode s.channel_mode = none ∨
       select_block_length s.block_length = none ∨
       select_subbands s.subbands = none) := by
  unfold select_sbc_params
  cases h1 : select_frequency s.frequency <;>
    cases h2 : select_channel_mode s.channel_mode <;>
      cases h3 : select_block_length s.block_length <;>
        cases h4 : select_subbands s.subbands <;>
          simp

/-- On success the selected bitpool bounds are exactly the C assignments. -/
theorem select_sbc_params_some : ∀ s c : sbc_codec_cap,
    select_sbc_params s = some c →
    c.min_bitpool = max MIN_BITPOOL s.min_bitpool ∧
    c.max_bitpool = min (default_bitpool c.frequency c.channel_mode)
      s.max_bitpool := by
  intro s c h
  simp only [select_sbc_params, Option.bind_eq_some, Option.some.injEq] at h
  obtain ⟨f, hf, m, hm, b, hb, sb, hsb, hc⟩ := h
  subst hc
  constructor <;> rfl

/-- The default-bitpool table never exceeds 53. -/
theorem default_bitpool_le : ∀ f m : Nat, default_bitpool f m ≤ 53 := by
  intro f m
  unfold default_bitpool
  repeat' split
  all_goals omega

/-- The default-bitpool table is never below 29. -/
theorem default_bitpool_ge : ∀ f m : Nat, 29 ≤ default_bitpool f m := by
  intro f m
  unfold default_bitpool
  repeat' split
  all_goals omega

/-- The `setconf_ind` capability loop, characterised through the first
media-codec entry. -/
theorem setconf_bitpool_check_spec :
    ∀ (caps : List avdtp_service_capability) (mc : sbc_codec_cap),
    find_media_codec caps = some mc →
    mc.media_codec_type = A2DP_CODEC_SBC →
    (setconf_bitpool_check caps = true ↔
      ¬(mc.min_bitpool < MIN_BITPOOL ∨ mc.max_bitpool > MAX_BITPOOL)) := by
  intro caps
  induction caps with
  | nil =>
    intro mc h
    simp [find_media_codec] at h
  | cons cap rest ih =>
    intro mc hfind hsbc
    by_cases hcat : cap.category = AVDTP_MEDIA_CODEC
    · simp only [find_media_codec, if_pos hcat, Option.some.injEq] at hfind
      subst hfind
      simp only [setconf_bitpool_check, if_pos hcat, if_pos hsbc]
      by_cases hbp : cap.codec.min_bitpool < MIN_BITPOOL ∨
        cap.codec.max_bitpool > MAX_BITPOOL
      · simp [hbp]
      · simp [hbp]
    · simp only [find_media_codec, if_neg hcat] at hfind
      simp only [setconf_bitpool_check, if_neg hcat]
      exact ih mc hfind hsbc

/-! ## Claim theorems -/

/-- C1: for every remote SBC capability (fields within their C bitfield
widths) that has at least one bit in common with the full local capability
set in each of the five mask fields, `select_sbc_params` succeeds and picks
the single highest-preference common bit in the fixed orders 44.1 kHz, 48
kHz, 32 kHz, 16 kHz; joint stereo, stereo, dual channel, mono; block length
16, 12, 8, 4; subbands 8, 4; allocation loudness, SNR; with
`min_bitpool = max(2, remote min)` and `max_bitpool = min(remote max,
default_bitpool(freq, mode))`, the default-bitpool table being 53 at
16/32 kHz, 31 (mono/dual) or 53 (stereo/joint) at 44.1 kHz, and 29
(mono/dual) or 51 (stereo/joint) at 48 kHz. -/
theorem select_sbc_params_policy :
    (∀ s : sbc_codec_cap,
      s.frequency < 16 → s.channel_mode < 16 → s.block_length < 16 →
      s.subbands < 4 → s.allocation_method < 4 →
      s.frequency &&& local_sbc_cap.frequency ≠ 0 →
      s.channel_mode &&& local_sbc_cap.channel_mode ≠ 0 →
      s.block_length &&& local_sbc_cap.block_length ≠ 0 →
      s.subbands &&& local_sbc_cap.subbands ≠ 0 →
      s.allocation_method &&& local_sbc_cap.allocation_method ≠ 0 →
      select_sbc_params s = some
        { media_type := AVDTP_MEDIA_TYPE_AUDIO
          media_codec_type := A2DP_CODEC_SBC
          frequency := firstSetBit [A2DP_SAMPLING_FREQ_44100,
            A2DP_SAMPLING_FREQ_48000, A2DP_SAMPLING_FREQ_32000,
            A2DP_SAMPLING_FREQ_16000] s.frequency
          channel_mode := firstSetBit [A2DP_CHANNEL_MODE_JOINT_STEREO,
            A2DP_CHANNEL_MODE_STEREO, A2DP_CHANNEL_MODE_DUAL_CHANNEL,
            A2DP_CHANNEL_MODE_MONO] s.channel_mode
          block_length := firstSetBit [A2DP_BLOCK_LENGTH_16,
            A2DP_BLOCK_LENGTH_12, A2DP_BLOCK_LENGTH_8,
            A2DP_BLOCK_LENGTH_4] s.block_length
          subbands := firstSetBit [A2DP_SUBBANDS_8, A2DP_SUBBANDS_4]
            s.subbands
          allocation_method := firstSetBit [A2DP_ALLOCATION_LOUDNESS,
            A2DP_ALLOCATION_SNR] s.allocation_method
          min_bitpool := max MIN_BITPOOL s.min_bitpool
          max_bitpool := min
            (default_bitpool
              (firstSetBit [A2DP_SAMPLING_FREQ_44100,
                A2DP_SAMPLING_FREQ_48000, A2DP_SAMPLING_FREQ_32000,
                A2DP_SAMPLING_FREQ_16000] s.frequency)
              (firstSetBit [A2DP_CHANNEL_MODE_JOINT_STEREO,
                A2DP_CHANNEL_MODE_STEREO, A2DP_CHANNEL_MODE_DUAL_CHANNEL,
                A2DP_CHANNEL_MODE_MONO] s.channel_mode))
            s.max_bitpool })
    ∧ (∀ m, default_bitpool A2DP_SAMPLING_FREQ_16000 m = 53)
    ∧ (∀ m, default_bitpool A2DP_SAMPLING_FREQ_32000 m = 53)
    ∧ default_bitpool A2DP_SAMPLING_FREQ_44100 A2DP_CHANNEL_MODE_MONO = 31
    ∧ default_bitpool A2DP_SAMPLING_FREQ_44100 A2DP_CHANNEL_MODE_DUAL_CHANNEL = 31
    ∧ default_bitpool A2DP_SAMPLING_FREQ_44100 A2DP_CHANNEL_MODE_STEREO = 53
    ∧ default_bitpool A2DP_SAMPLING_FREQ_44100 A2DP_CHANNEL_MODE_JOINT_STEREO = 53
    ∧ default_bitpool A2DP_SAMPLING_FREQ_48000 A2DP_CHANNEL_MODE_MONO = 29
    ∧ default_bitpool A2DP_SAMPLING_FREQ_48000 A2DP_CHANNEL_MODE_DUAL_CHANNEL = 29
    ∧ default_bitpool A2DP_SAMPLING_FREQ_48000 A2DP_CHANNEL_MODE_STEREO = 51
    ∧ default_bitpool A2DP_SAMPLING_FREQ_48000 A2DP_CHANNEL_MODE_JOINT_STEREO = 51 := by
  refine ⟨?_, fun m => rfl, fun m => rfl, rfl, rfl, rfl, rfl, rfl, rfl, rfl, rfl⟩
  intro s hf hm hb hsb ha cf cm cbl csb ca
  have cf2 : s.frequency &&& 15 ≠ 0 := cf
  have cm2 : s.channel_mode &&& 15 ≠ 0 := cm
  have cb2 : s.block_length &&& 15 ≠ 0 := cbl
  have cs2 : s.subbands &&& 3 ≠ 0 := csb
  have ca2 : s.allocation_method &&& 3 ≠ 0 := ca
  simp only [select_sbc_params,
    select_frequency_common s.frequency hf cf2,
    select_channel_mode_common s.channel_mode hm cm2,
    select_block_length_common s.block_length hb cb2,
    select_subbands_common s.subbands hsb cs2,
    select_allocation_common s.allocation_method ha ca2,
    Option.some_bind]

/-- C1 witness: the spec's cold-start scenario, remote caps
freq=0x03, mode=0x03, blk=0x0F, sub=0x03, alloc=0x03, bitpool [2, 50],
yield 44.1 kHz joint stereo, block 16, subbands 8, loudness,
bitpool [2, min(53, 50) = 50]. -/
theorem select_sbc_params_policy_witness :
    select_sbc_params
      { media_type := 0, media_codec_type := 0, frequency := 3,
        channel_mode := 3, block_length := 15, subbands := 3,
        allocation_method := 3, min_bitpool := 2, max_bitpool := 50 } =
    some { media_type := 0, media_codec_type := 0, frequency := 2,
           channel_mode := 1, block_length := 1, subbands := 1,
           allocation_method := 1, min_bitpool := 2, max_bitpool := 50 } := by
  have h := select_sbc_params_policy.1
    { media_type := 0, media_codec_type := 0, frequency := 3,
      channel_mode := 3, block_length := 15, subbands := 3,
      allocation_method := 3, min_bitpool := 2, max_bitpool := 50 }
    (by decide) (by decide) (by decide) (by decide) (by decide)
    (by decide) (by decide) (by decide) (by decide) (by decide)
  exact h

/-- C3 counterexample: a remote capability sharing bits with the local set
in frequency, channel mode, block length and subbands, but with an empty
allocation-method field, makes `select_sbc_params` succeed, not fail — the
C chain for allocation has no failure branch. -/
theorem select_sbc_params_empty_alloc_cx :
    (select_sbc_params
      { media_type := 0, media_codec_type := 0, frequency := 2,
        channel_mode := 1, block_length := 1, subbands := 1,
        allocation_method := 0, min_bitpool := 2,
        max_bitpool := 53 }).isSome = true
    ∧ (0 : Nat) &&& local_sbc_cap.allocation_method = 0 := by decide

/-- C3 amended: `select_sbc_params` fails if and only if at least one of
the four intersections frequency, channel mode, block length, subbands
(fields within their C bitfield widths) with the full local set is empty;
an empty allocation-method intersection does not make it fail — the
allocation field is simply left 0. -/
theorem select_sbc_params_none_iff : ∀ s : sbc_codec_cap,
    s.frequency < 16 → s.channel_mode < 16 → s.block_length < 16 →
    s.subbands < 4 →
    (select_sbc_params s = none ↔
      (s.frequency &&& local_sbc_cap.frequency = 0 ∨
       s.channel_mode &&& local_sbc_cap.channel_mode = 0 ∨
       s.block_length &&& local_sbc_cap.block_length = 0 ∨
       s.subbands &&& local_sbc_cap.subbands = 0)) := by
  intro s hf hm hb hsb
  rw [select_sbc_params_eq_none s,
      select_frequency_none s.frequency hf,
      select_channel_mode_none s.channel_mode hm,
      select_block_length_none s.block_length hb,
      select_subbands_none s.subbands hsb]
  exact Iff.rfl

/-- C3 amended witness: a capability offering only unknown frequency bits
is rejected. -/
theorem select_sbc_params_none_iff_witness :
    select_sbc_params
      { media_type := 0, media_codec_type := 0, frequency := 0,
        channel_mode := 15, block_length := 15, subbands := 3,
        allocation_method := 3, min_bitpool := 2, max_bitpool := 64 } =
      none := by
  exact (select_sbc_params_none_iff _ (by decide) (by decide) (by decide)
    (by decide)).mpr (Or.inl (by decide))

/-- C2 counterexample: `select_sbc_params` returns TRUE on a remote range
[60, 60] at 44.1 kHz joint stereo, producing min_bitpool = 60 >
max_bitpool = min(53, 60) = 53; and `setconf_ind` accepts an inverted
range [50, 10], since the C check only tests the two endpoints against
[2, 64]. -/
theorem accepted_bitpool_cx :
    select_sbc_params
      { media_type := 0, media_codec_type := 0, frequency := 2,
        channel_mode := 1, block_length := 1, subbands := 1,
        allocation_method := 1, min_bitpool := 60, max_bitpool := 60 } =
    some { media_type := 0, media_codec_type := 0, frequency := 2,
           channel_mode := 1, block_length := 1, subbands := 1,
           allocation_method := 1, min_bitpool := 60, max_bitpool := 53 }
    ∧ (53 : Nat) < 60
    ∧ (setconf_ind AVDTP_SEP_TYPE_SOURCE true
        [{ category := AVDTP_MEDIA_CODEC,
           codec := { media_type := 0, media_codec_type := 0,
                      frequency := 2, channel_mode := 1, block_length := 1,
                      subbands := 1, allocation_method := 1,
                      min_bitpool := 50, max_bitpool := 10 } }]
        none 1).accepted = true
    ∧ (10 : Nat) < 50 := by decide

/-- C2 amended: every accepted configuration satisfies `2 ≤ min_bitpool`
and `max_bitpool ≤ 64` — on the `setconf_ind` side for the SBC codec
capability the accepted indication carries, and on the
`select_sbc_params` side by construction; the full chain
`min_bitpool ≤ max_bitpool` is not enforced by either path, and holds for
`select_sbc_params` only when the remote range is itself ordered, reaches
2, and its minimum does not exceed the default bitpool of the selected
frequency and mode. -/
theorem accepted_bitpool_bounds :
    (∀ s c : sbc_codec_cap, select_sbc_params s = some c →
      MIN_BITPOOL ≤ c.min_bitpool ∧ c.max_bitpool ≤ MAX_BITPOOL)
    ∧ (∀ (ty : Nat) (dp : Bool) (caps : List avdtp_service_capability)
        (s0 : Option Nat) (st : Nat) (mc : sbc_codec_cap),
        (setconf_ind ty dp caps s0 st).accepted = true →
        find_media_codec caps = some mc →
        mc.media_codec_type = A2DP_CODEC_SBC →
        MIN_BITPOOL ≤ mc.min_bitpool ∧ mc.max_bitpool ≤ MAX_BITPOOL)
    ∧ (∀ s c : sbc_codec_cap, select_sbc_params s = some c →
        s.min_bitpool ≤ s.max_bitpool →
        MIN_BITPOOL ≤ s.max_bitpool →
        s.min_bitpool ≤ default_bitpool c.frequency c.channel_mode →
        c.min_bitpool ≤ c.max_bitpool) := by
  refine ⟨?_, ?_, ?_⟩
  · intro s c h
    obtain ⟨h1, h2⟩ := select_sbc_params_some s c h
    constructor
    · rw [h1]; exact Nat.le_max_left _ _
    · rw [h2]
      refine le_trans (Nat.min_le_left _ _) (le_trans (default_bitpool_le _ _) ?_)
      simp [MAX_BITPOOL]
  · intro ty dp caps s0 st mc hacc hfind hsbc
    by_cases hchk : setconf_bitpool_check caps = true
    · have hspec := (setconf_bitpool_check_spec caps mc hfind hsbc).mp hchk
      simp only [MIN_BITPOOL, MAX_BITPOOL] at *
      omega
    · exfalso
      unfold setconf_ind at hacc
      cases dp with
      | false => simp at hacc
      | true => simp [hchk] at hacc
  · intro s c h hord hmax hmin
    obtain ⟨h1, h2⟩ := select_sbc_params_some s c h
    rw [h1, h2, Nat.max_le]
    have hd := default_bitpool_ge c.frequency c.channel_mode
    simp only [MIN_BITPOOL] at *
    constructor
    · rw [Nat.le_min]; omega
    · rw [Nat.le_min]; omega

/-- C2 amended witness: the cold-start scenario configuration keeps its
bitpool endpoints inside [2, 64]. -/
theorem accepted_bitpool_bounds_witness :
    MIN_BITPOOL ≤ 2 ∧ (50 : Nat) ≤ MAX_BITPOOL := by
  have h := accepted_bitpool_bounds.1
    { media_type := 0, media_codec_type := 0, frequency := 3,
      channel_mode := 3, block_length := 15, subbands := 3,
      allocation_method := 3, min_bitpool := 2, max_bitpool := 50 }
    { media_type := 0, media_codec_type := 0, frequency := 2,
      channel_mode := 1, block_length := 1, subbands := 1,
      allocation_method := 1, min_bitpool := 2, max_bitpool := 50 }
    (by decide)
  exact h

/-- C7: for every remote set_configuration indication on a connected
device whose first media-codec capability is SBC: if its bitpool range
leaves [2, 64], `setconf_ind` rejects with
`AVDTP_UNSUPPORTED_CONFIGURATION` and category `AVDTP_MEDIA_CODEC`,
leaving the SEP's stream slot unchanged; otherwise it accepts, attaches
the `stream_state_changed` listener, records the stream in the SEP, and
notifies the sink consumer exactly when the SEP has the SOURCE role. -/
theorem setconf_ind_bitpool :
    ∀ (ty : Nat) (caps : List avdtp_service_capability) (s0 : Option Nat)
      (st : Nat) (mc : sbc_codec_cap),
    find_media_codec caps = some mc →
    mc.media_codec_type = A2DP_CODEC_SBC →
    ((mc.min_bitpool < MIN_BITPOOL ∨ mc.max_bitpool > MAX_BITPOOL) →
      setconf_ind ty true caps s0 st =
        { accepted := false, err := some AVDTP_UNSUPPORTED_CONFIGURATION,
          err_category := some AVDTP_MEDIA_CODEC, sep_stream := s0,
          cb_attached := false, sink_notified := false })
    ∧ (¬(mc.min_bitpool < MIN_BITPOOL ∨ mc.max_bitpool > MAX_BITPOOL) →
      setconf_ind ty true caps s0 st =
        { accepted := true, err := none, err_category := none,
          sep_stream := some st, cb_attached := true,
          sink_notified := ty == AVDTP_SEP_TYPE_SOURCE }) := by
  intro ty caps s0 st mc hfind hsbc
  have hspec := setconf_bitpool_check_spec caps mc hfind hsbc
  constructor
  · intro hbad
    have hchk : setconf_bitpool_check caps = false := by
      cases h : setconf_bitpool_check caps with
      | false => rfl
      | true => exact absurd hbad (hspec.mp h)
    unfold setconf_ind
    simp [hchk]
  · intro hgood
    have hchk : setconf_bitpool_check caps = true := hspec.mpr hgood
    unfold setconf_ind
    simp [hchk]

/-- C7 witness: the spec's scenario 6, a remote offer with min_bitpool = 1,
is rejected with `UNSUPPORTED_CONFIGURATION`, category media-codec, and the
SEP's stream slot keeps its prior value. -/
theorem setconf_ind_bitpool_witness :
    setconf_ind AVDTP_SEP_TYPE_SOURCE true
      [{ category := AVDTP_MEDIA_CODEC,
         codec := { media_type := 0, media_codec_type := 0, frequency := 2,
                    channel_mode := 1, block_length := 1, subbands := 1,
                    allocation_method := 1, min_bitpool := 1,
                    max_bitpool := 53 } }] (some 9) 1 =
      { accepted := false, err := some AVDTP_UNSUPPORTED_CONFIGURATION,
        err_category := some AVDTP_MEDIA_CODEC, sep_stream := some 9,
        cb_attached := false, sink_notified := false } := by
  exact (setconf_ind_bitpool AVDTP_SEP_TYPE_SOURCE
    [{ category := AVDTP_MEDIA_CODEC,
       codec := { media_type := 0, media_codec_type := 0, frequency := 2,
                  channel_mode := 1, block_length := 1, subbands := 1,
                  allocation_method := 1, min_bitpool := 1,
                  max_bitpool := 53 } }] (some 9) 1
    { media_type := 0, media_codec_type := 0, frequency := 2,
      channel_mode := 1, block_length := 1, subbands := 1,
      allocation_method := 1, min_bitpool := 1, max_bitpool := 53 }
    (by decide) (by decide)).1 (by decide)


/-- The SEP-scanning loop is exactly "first eligible in pool order":
eligible means not locked and (stream slot empty, or the stream owned by
the session). -/
theorem find_sep_eq_find (hs : Nat → Bool) (l : List a2dp_sep) :
    request_stream_find_sep hs l =
      l.find? (fun t => !t.locked && (t.stream.isNone || t.stream.any hs)) := by
  induction l with
  | nil => rfl
  | cons t rest ih =>
    simp only [request_stream_find_sep, List.find?]
    cases hl : t.locked with
    | true => simp [hl, ih]
    | false =>
      cases hstream : t.stream with
      | none => simp [hl, hstream]
      | some st =>
        cases hh : hs st with
        | true => simp [hl, hstream, hh, Option.any]
        | false => simp [hl, hstream, hh, Option.any, ih]

/-- C4: `a2dp_source_request_stream` picks the first SEP in pool order that
is not locked and whose stream slot is empty or owned by the session;
returns 0 when no SEP is eligible; and when a stream setup already exists
for the session it appends a new callback record, clears `canceled`, sets
the target SEP, ORs in the start flag, and returns the fresh non-zero id
without issuing any AVDTP operation. -/
theorem a2dp_source_request_stream_spec :
    (∀ (hs : Nat → Bool) (l : List a2dp_sep),
      request_stream_find_sep hs l =
        l.find? (fun t => !t.locked && (t.stream.isNone || t.stream.any hs)))
    ∧ (∀ (sources : List a2dp_sep) (hs : Nat → Bool) (session : Nat)
        (start : Bool) (mc : Option Nat) (ex : Option a2dp_stream_setup)
        (cb : Nat) (d so co hc : Bool),
        request_stream_find_sep hs sources = none →
        (a2dp_source_request_stream sources hs session start mc ex cb
          d so co hc).ret_id = 0)
    ∧ (∀ (sources : List a2dp_sep) (hs : Nat → Bool) (session : Nat)
        (start : Bool) (mc : Option Nat) (setup : a2dp_stream_setup)
        (cb : Nat) (d so co hc : Bool) (sep : a2dp_sep),
        request_stream_find_sep hs sources = some sep →
        (a2dp_source_request_stream sources hs session start mc (some setup)
            cb d so co hc =
          { ret_id := cb + 1
            cb_id := cb + 1
            setup := some { setup with
              canceled := false
              sep := some sep
              cb := setup.cb ++ [cb + 1]
              start := setup.start || start }
            sep := some sep
            ops := []
            idle_finalize := false })
        ∧ cb + 1 ≠ 0) := by
  refine ⟨find_sep_eq_find, ?_, ?_⟩
  · intro sources hs session start mc ex cb d so co hc h
    simp [a2dp_source_request_stream, h]
  · intro sources hs session start mc setup cb d so co hc sep h
    refine ⟨?_, by omega⟩
    simp [a2dp_source_request_stream, h]

/-- C4 witness: a second request against a session that already has a
setup appends callback id 2, clears `canceled`, retargets the SEP, ORs in
start, and issues nothing. -/
theorem a2dp_source_request_stream_spec_witness :
    a2dp_source_request_stream
      [{ typ := 0, state := avdtp_state.OPEN, session := none,
         stream := some 7, suspend_timer := false, locked := false,
         suspending := false, starting := false }]
      (fun st => st == 7) 1 true none
      (some { session := 1, sep := none, stream := some 7,
              media_codec := none, start := false, canceled := true,
              cb := [1] }) 1 true true true true =
    { ret_id := 2
      cb_id := 2
      setup := some { session := 1
                      sep := some { typ := 0
                                    state := avdtp_state.OPEN
                                    session := none
                                    stream := some 7
                                    suspend_timer := false
                                    locked := false
                                    suspending := false
                                    starting := false }
                      stream := some 7
                      media_codec := none
                      start := true
                      canceled := false
                      cb := [1, 2] }
      sep := some { typ := 0, state := avdtp_state.OPEN, session := none,
                    stream := some 7, suspend_timer := false,
                    locked := false, suspending := false,
                    starting := false }
      ops := []
      idle_finalize := false } := by
  exact (a2dp_source_request_stream_spec.2.2
    [{ typ := 0, state := avdtp_state.OPEN, session := none,
       stream := some 7, suspend_timer := false, locked := false,
       suspending := false, starting := false }]
    (fun st => st == 7) 1 true none
    { session := 1, sep := none, stream := some 7, media_codec := none,
      start := false, canceled := true, cb := [1] }
    1 true true true true
    { typ := 0, state := avdtp_state.OPEN, session := none,
      stream := some 7, suspend_timer := false, locked := false,
      suspending := false, starting := false }
    (by decide)).1

/-- C5 counterexample: a new setup against a STREAMING SEP with
`suspending = true` and `start = true`.  The claim predicts finalize is
scheduled on the next idle tick; the code's condition
`!start || !sep->suspending` is false here, so nothing is scheduled (the
setup waits for the suspend confirmation) and the idle-suspend timer is
left alone. -/
theorem request_stream_streaming_cx :
    (a2dp_source_request_stream
      [{ typ := 0, state := avdtp_state.STREAMING, session := some 1,
         stream := some 5, suspend_timer := true, locked := false,
         suspending := true, starting := false }]
      (fun _ => true) 1 true none none 0 true true true true).idle_finalize
      = false
    ∧ (a2dp_source_request_stream
      [{ typ := 0, state := avdtp_state.STREAMING, session := some 1,
         stream := some 5, suspend_timer := true, locked := false,
         suspending := true, starting := false }]
      (fun _ => true) 1 true none none 0 true true true true).ret_id = 1 := by
  decide

/-- C5 amended: creating a new setup with the chosen SEP in STREAMING: if
start is false or the SEP is NOT transitioning to suspended, the pending
idle-suspend timer is cancelled and finalize is scheduled on the next idle
tick (the stream is already live); otherwise — start requested while a
suspend is in flight — nothing is issued or scheduled and completion is
deferred to the suspend confirmation. -/
theorem request_stream_streaming_case :
    ∀ (sources : List a2dp_sep) (hs : Nat → Bool) (session : Nat)
      (start : Bool) (mc : Option Nat) (cb : Nat) (d so co hc : Bool)
      (sep : a2dp_sep),
    request_stream_find_sep hs sources = some sep →
    sep.state = avdtp_state.STREAMING →
    ((start = false ∨ sep.suspending = false) →
      a2dp_source_request_stream sources hs session start mc none cb
          d so co hc =
        { ret_id := cb + 1
          cb_id := cb + 1
          setup := some { session := session
                          sep := some sep
                          stream := sep.stream
                          media_codec := mc
                          start := start
                          canceled := false
                          cb := [cb + 1] }
          sep := some { sep with suspend_timer := false }
          ops := []
          idle_finalize := true })
    ∧ (start = true → sep.suspending = true →
      a2dp_source_request_stream sources hs session start mc none cb
          d so co hc =
        { ret_id := cb + 1
          cb_id := cb + 1
          setup := some { session := session
                          sep := some sep
                          stream := sep.stream
                          media_codec := mc
                          start := start
                          canceled := false
                          cb := [cb + 1] }
          sep := some sep
          ops := []
          idle_finalize := false }) := by
  intro sources hs session start mc cb d so co hc sep hfind hstate
  constructor
  · intro hcond
    rcases hcond with h | h <;>
      simp [a2dp_source_request_stream, hfind, hstate, h]
  · intro h1 h2
    simp [a2dp_source_request_stream, hfind, hstate, h1, h2]

/-- C5 amended witness: STREAMING SEP not suspending, start requested:
the timer is cleared and finalize goes to the idle queue. -/
theorem request_stream_streaming_case_witness :
    a2dp_source_request_stream
      [{ typ := 0, state := avdtp_state.STREAMING, session := some 1,
         stream := some 5, suspend_timer := true, locked := false,
         suspending := false, starting := false }]
      (fun _ => true) 1 true none none 0 true true true true =
    { ret_id := 1
      cb_id := 1
      setup := some { session := 1
                      sep := some { typ := 0
                                    state := avdtp_state.STREAMING
                                    session := some 1
                                    stream := some 5
                                    suspend_timer := true
                                    locked := false
                                    suspending := false
                                    starting := false }
                      stream := some 5
                      media_codec := none
                      start := true
                      canceled := false
                      cb := [1] }
      sep := some { typ := 0, state := avdtp_state.STREAMING,
                    session := some 1, stream := some 5,
                    suspend_timer := false, locked := false,
                    suspending := false, starting := false }
      ops := []
      idle_finalize := true } := by
  exact (request_stream_streaming_case
    [{ typ := 0, state := avdtp_state.STREAMING, session := some 1,
       stream := some 5, suspend_timer := true, locked := false,
       suspending := false, starting := false }]
    (fun _ => true) 1 true none 0 true true true true
    { typ := 0, state := avdtp_state.STREAMING, session := some 1,
      stream := some 5, suspend_timer := true, locked := false,
      suspending := false, starting := false }
    (by decide) (by decide)).1 (Or.inr (by decide))

/-- C6 counterexample: unlocking a SEP whose stream is in OPEN state arms
no idle-suspend timer and issues nothing — the `AVDTP_STATE_OPEN` case of
the C switch holds only the comment `/* Set timer here */`. -/
theorem sep_unlock_open_cx :
    (a2dp_sep_unlock
      { typ := 0, state := avdtp_state.OPEN, session := some 1,
        stream := some 3, suspend_timer := false, locked := true,
        suspending := false, starting := false } true).2.timer_armed = false
    ∧ (a2dp_sep_unlock
      { typ := 0, state := avdtp_state.OPEN, session := some 1,
        stream := some 3, suspend_timer := false, locked := true,
        suspending := false, starting := false } true).1.suspend_timer = false
    ∧ (a2dp_sep_unlock
      { typ := 0, state := avdtp_state.OPEN, session := some 1,
        stream := some 3, suspend_timer := false, locked := true,
        suspending := false, starting := false } true).2.ops = [] := by
  decide

/-- C6 amended: `a2dp_sep_unlock` always clears `locked`; in STREAMING
(with a stream) it issues suspend and sets `suspending` on success; in
OPEN it does nothing further (the timer arming exists only as a comment);
in IDLE or with no stream it does nothing further; and lock followed by
unlock on an initially unlocked IDLE SEP leaves the SEP unchanged. -/
theorem sep_unlock_behavior :
    ∀ (sep : a2dp_sep) (ok : Bool),
    ((a2dp_sep_unlock sep ok).1.locked = false)
    ∧ (sep.state = avdtp_state.STREAMING → sep.stream ≠ none →
        (a2dp_sep_unlock sep ok).2.ops = [avdtp_op.suspend]
        ∧ (a2dp_sep_unlock sep ok).1.suspending =
            (if ok then true else sep.suspending))
    ∧ (sep.state = avdtp_state.OPEN →
        a2dp_sep_unlock sep ok =
          ({ sep with locked := false }, { ops := [], timer_armed := false }))
    ∧ ((sep.state = avdtp_state.IDLE ∨ sep.stream = none) →
        a2dp_sep_unlock sep ok =
          ({ sep with locked := false }, { ops := [], timer_armed := false }))
    ∧ (sep.state = avdtp_state.IDLE → sep.locked = false →
        a2dp_sep_unlock (a2dp_sep_lock sep).1 ok =
          (sep, { ops := [], timer_armed := false })) := by
  intro sep ok
  refine ⟨?_, ?_, ?_, ?_, ?_⟩
  · simp only [a2dp_sep_unlock]
    repeat' split
    all_goals rfl
  · intro h1 h2
    simp [a2dp_sep_unlock, h1, h2]
  · intro h1
    by_cases h2 : sep.stream = none <;> simp [a2dp_sep_unlock, h1, h2]
  · intro h
    rcases h with h | h <;> simp [a2dp_sep_unlock, h]
  · intro h1 h2
    cases sep
    simp_all [a2dp_sep_lock, a2dp_sep_unlock]

/-- C6 amended witness: lock then unlock on an unlocked IDLE SEP is a
no-op. -/
theorem sep_unlock_behavior_witness :
    a2dp_sep_unlock
      (a2dp_sep_lock
        { typ := 0, state := avdtp_state.IDLE, session := none,
          stream := none, suspend_timer := false, locked := false,
          suspending := false, starting := false }).1 true =
      ({ typ := 0, state := avdtp_state.IDLE, session := none,
         stream := none, suspend_timer := false, locked := false,
         suspending := false, starting := false },
       { ops := [], timer_armed := false }) := by
  exact (sep_unlock_behavior
    { typ := 0, state := avdtp_state.IDLE, session := none,
      stream := none, suspend_timer := false, locked := false,
      suspending := false, starting := false } true).2.2.2.2
    (by decide) (by decide)

/-- C8: evaluation of the HID watch callbacks on a connected device.
After the interrupt watch fires with HUP the interrupt watch id is
cleared, the interrupt channel is shut down, and the control channel
shutdown is issued (the counterpart-closure half of the claim); once the
induced NVAL dispatch of the control watch settles, both channels are
closed and every handle dropped — yet the device is still in the device
table: neither callback ever touches table membership (`hid_device_free`
is called only from the `bt_hid_connect` failure path), so the claimed
removal and the table-iff-open invariant fail. -/
theorem hid_watch_teardown_eval :
    (hid_after_intr_hup.intr_watch = false
      ∧ hid_after_intr_hup.intr_open = false
      ∧ hid_after_intr_hup.ctrl_open = false
      ∧ hid_after_intr_hup.in_table = true)
    ∧ (hid_settled.ctrl_open = false ∧ hid_settled.intr_open = false
      ∧ hid_settled.ctrl_ref = false ∧ hid_settled.intr_ref = false
      ∧ hid_settled.ctrl_watch = false ∧ hid_settled.intr_watch = false
      ∧ hid_settled.in_table = true)
    ∧ (∀ (d : hid_device) (c : gio_cond),
        (intr_watch_cb d c).1.in_table = d.in_table)
    ∧ (∀ (d : hid_device) (c : gio_cond),
        (ctrl_watch_cb d c).1.in_table = d.in_table) := by
  refine ⟨by decide, by decide, ?_, ?_⟩
  · intro d c
    simp only [intr_watch_cb]
    repeat' split
    all_goals rfl
  · intro d c
    simp only [ctrl_watch_cb]
    repeat' split
    all_goals rfl

/-- C9 counterexample: the HID_DISCONNECT case of `bt_hid_handle_cmd` only
`break`s, so the response carries the initial `HAL_STATUS_FAILED`, not an
acceptance. -/
theorem handle_cmd_disconnect_cx :
    (bt_hid_handle_cmd HAL_OP_HID_DISCONNECT 0 0 [] 0 false).status =
      HAL_STATUS_FAILED
    ∧ HAL_STATUS_FAILED ≠ HAL_STATUS_SUCCESS := by decide

/-- C9 amended: `bt_hid_handle_cmd` always sends exactly one IPC response;
for HID_CONNECT the status is INVALID on a short payload, FAILED on a
duplicate address or an immediate connect error, SUCCESS otherwise (the
device entering the table); HID_DISCONNECT is a no-op whose response
carries the initial FAILED status, exactly like an unknown opcode. -/
theorem bt_hid_handle_cmd_status :
    ∀ (opcode len cmd_size : Nat) (devices : List Nat) (dst : Nat)
      (cerr : Bool),
    ((bt_hid_handle_cmd opcode len cmd_size devices dst cerr).responses = 1)
    ∧ (opcode = HAL_OP_HID_CONNECT → len < cmd_size →
        (bt_hid_handle_cmd opcode len cmd_size devices dst cerr).status =
          HAL_STATUS_INVALID)
    ∧ (opcode = HAL_OP_HID_CONNECT → cmd_size ≤ len →
        devices.contains dst = true →
        (bt_hid_handle_cmd opcode len cmd_size devices dst cerr).status =
          HAL_STATUS_FAILED)
    ∧ (opcode = HAL_OP_HID_CONNECT → cmd_size ≤ len →
        devices.contains dst = false → cerr = true →
        (bt_hid_handle_cmd opcode len cmd_size devices dst cerr).status =
          HAL_STATUS_FAILED)
    ∧ (opcode = HAL_OP_HID_CONNECT → cmd_size ≤ len →
        devices.contains dst = false → cerr = false →
        (bt_hid_handle_cmd opcode len cmd_size devices dst cerr).status =
          HAL_STATUS_SUCCESS
        ∧ (bt_hid_handle_cmd opcode len cmd_size devices dst cerr).devices =
          devices ++ [dst])
    ∧ (opcode = HAL_OP_HID_DISCONNECT →
        bt_hid_handle_cmd opcode len cmd_size devices dst cerr =
          { status := HAL_STATUS_FAILED, responses := 1, devices := devices })
    ∧ (opcode ≠ HAL_OP_HID_CONNECT → opcode ≠ HAL_OP_HID_DISCONNECT →
        bt_hid_handle_cmd opcode len cmd_size devices dst cerr =
          { status := HAL_STATUS_FAILED, responses := 1,
            devices := devices }) := by
  intro opcode len cmd_size devices dst cerr
  refine ⟨?_, ?_, ?_, ?_, ?_, ?_, ?_⟩
  · simp only [bt_hid_handle_cmd]
    split
    · rfl
    · split <;> rfl
  · intro h1 h2
    subst h1
    simp [bt_hid_handle_cmd, bt_hid_connect, h2]
  · intro h1 h2 h3
    subst h1
    have hnl : ¬len < cmd_size := by omega
    have hm : dst ∈ devices := by simpa using h3
    simp [bt_hid_handle_cmd, bt_hid_connect, hnl, hm]
  · intro h1 h2 h3 h4
    subst h1
    subst h4
    have hnl : ¬len < cmd_size := by omega
    have hm : dst ∉ devices := by simpa using h3
    simp [bt_hid_handle_cmd, bt_hid_connect, hnl, hm]
  · intro h1 h2 h3 h4
    subst h1
    subst h4
    have hnl : ¬len < cmd_size := by omega
    have hm : dst ∉ devices := by simpa using h3
    constructor <;> simp [bt_hid_handle_cmd, bt_hid_connect, hnl, hm]
  · intro h1
    subst h1
    simp [bt_hid_handle_cmd, HAL_OP_HID_CONNECT, HAL_OP_HID_DISCONNECT]
  · intro h1 h2
    simp [bt_hid_handle_cmd, h1, h2]

/-- C9 amended witness: a well-formed HID_CONNECT to a fresh address with
a successful immediate connect answers SUCCESS and records the device. -/
theorem bt_hid_handle_cmd_status_witness :
    (bt_hid_handle_cmd HAL_OP_HID_CONNECT 6 6 [] 9 false).status =
      HAL_STATUS_SUCCESS
    ∧ (bt_hid_handle_cmd HAL_OP_HID_CONNECT 6 6 [] 9 false).devices = [9] := by
  exact (bt_hid_handle_cmd_status HAL_OP_HID_CONNECT 6 6 [] 9
    false).2.2.2.2.1 (by decide) (by decide) (by decide) (by decide)

/-- C10: `suspend_cfm` clears `suspending`; on an error-free confirmation
with a setup whose start flag is set it issues `avdtp_start` — finalizing
only if that call fails — and it never examines the setup's canceled flag,
so a setup canceled while the suspend was in flight is restarted rather
than dropped. -/
theorem suspend_cfm_restart :
    ∀ (sep : a2dp_sep) (setup : a2dp_stream_setup) (start_ok : Bool),
    ((suspend_cfm sep false (some setup) start_ok).sep.suspending = false)
    ∧ (setup.start = true →
        (suspend_cfm sep false (some setup) start_ok).ops = [avdtp_op.start]
        ∧ (suspend_cfm sep false (some setup) start_ok).finalized =
            !start_ok)
    ∧ (∀ c1 c2 : Bool,
        suspend_cfm sep false (some { setup with canceled := c1 }) start_ok =
        suspend_cfm sep false (some { setup with canceled := c2 }) start_ok)
    ∧ (setup.canceled = true → setup.start = true →
        (suspend_cfm sep false (some setup) start_ok).ops =
          [avdtp_op.start]) := by
  intro sep setup start_ok
  refine ⟨?_, ?_, ?_, ?_⟩
  · simp only [suspend_cfm]
    repeat' split
    all_goals rfl
  · intro h
    cases start_ok <;> simp [suspend_cfm, h]
  · intro c1 c2
    cases hs : setup.start <;> cases start_ok <;> simp [suspend_cfm, hs]
  · intro hc h
    cases start_ok <;> simp [suspend_cfm, h]

/-- C10 witness: a canceled setup with the start flag set still gets
`avdtp_start` reissued. -/
theorem suspend_cfm_restart_witness :
    (suspend_cfm
      { typ := 0, state := avdtp_state.STREAMING, session := some 1,
        stream := some 5, suspend_timer := false, locked := false,
        suspending := true, starting := false } false
      (some { session := 1, sep := none, stream := some 5,
              media_codec := none, start := true, canceled := true,
              cb := [] }) true).ops = [avdtp_op.start] := by
  exact (suspend_cfm_restart
    { typ := 0, state := avdtp_state.STREAMING, session := some 1,
      stream := some 5, suspend_timer := false, locked := false,
      suspending := true, starting := false }
    { session := 1, sep := none, stream := some 5, media_codec := none,
      start := true, canceled := true, cb := [] } true).2.2.2
    (by decide) (by decide)
